import Mathlib

/-!
Shallow embedding of `ui/app.py` (data-platform pipeline control console).

The external world is modelled by a `SpawnEnv`: a function telling, for each
argument vector, what spawning that command does (program missing, or the
process ran and exited with a status together with its captured stdout and
stderr).  `subprocess.run(..., check=True, capture_output=True, text=True)`
raises `FileNotFoundError` when the program is missing and
`CalledProcessError` exactly when the exit status is nonzero; otherwise it
returns the captured streams.  The existence of `docker-compose.yml` and its
rendered path are passed as explicit parameters (`compose_file_exists`,
`compose_file_path`), since they come from the filesystem at run time.
-/

/-- Result of spawning one external command. -/
inductive ProcResult where
  | notFound : ProcResult
  | exited (exitStatus : Nat) (stdout stderr : String) : ProcResult
deriving DecidableEq

/-- The process environment: what running each argument vector does. -/
def SpawnEnv : Type := List String → ProcResult

/-- `ServiceNode` dataclass (app.py lines 14-21). -/
structure ServiceNode where
  identifier : String
  label : String
  description : String
  compose_service : String
deriving DecidableEq, Inhabited

/-- `PIPELINE_STEPS` (app.py lines 24-58). -/
def PIPELINE_STEPS : List ServiceNode :=
  [{ identifier := "dataingestion-service",
     label := "Data Ingestion",
     description := "Collects data from product analytics sources and APIs, preparing it for downstream processing.",
     compose_service := "dataingestion-service" },
   { identifier := "datadeduplication-service",
     label := "Data Deduplication",
     description := "Removes duplicate records to ensure unique, high-quality data assets.",
     compose_service := "datadeduplication-service" },
   { identifier := "dataquality-service",
     label := "Data Quality",
     description := "Validates schema, completeness, and accuracy rules before persistence.",
     compose_service := "dataquality-service" },
   { identifier := "datalineage-service",
     label := "Data Lineage",
     description := "Captures lineage metadata so teams can trace transformations across the pipeline.",
     compose_service := "datalineage-service" }]

/-- `PIPELINE_EDGES` (app.py lines 60-63): the comprehension
`[(PIPELINE_STEPS[i].identifier, PIPELINE_STEPS[i+1].identifier)
   for i in range(len(PIPELINE_STEPS) - 1)]`. -/
def PIPELINE_EDGES : List (String × String) :=
  (List.range (PIPELINE_STEPS.length - 1)).map fun index =>
    ((PIPELINE_STEPS.getD index default).identifier,
     (PIPELINE_STEPS.getD (index + 1) default).identifier)

/-- The tuple `commands_to_try` of `start_service_via_compose`
(app.py lines 102-105). -/
def start_commands_to_try (service_name : String) : List (List String) :=
  [["docker", "compose", "up", "-d", service_name],
   ["docker-compose", "up", "-d", service_name]]

/-- The tuple `commands_to_try` of `fetch_service_logs`
(app.py lines 151-154). -/
def logs_commands_to_try (service_name : String) : List (List String) :=
  [["docker", "compose", "logs", "--tail", "200", service_name],
   ["docker-compose", "logs", "--tail", "200", service_name]]

/-- The `FileNotFoundError` diagnostic (app.py lines 118-120 and 167-169):
`"Command not found: " + " ".join(command[:1 if command[0] != 'docker' else 2])`. -/
def command_not_found_message (command : List String) : String :=
  "Command not found: " ++
    String.intercalate " "
      (command.take (if command.headD "" = "docker" then 2 else 1))

/-- The ASCII whitespace characters Python's `str.strip()` removes
(space, tab, newline, carriage return, vertical tab, form feed). -/
def py_is_space (c : Char) : Bool :=
  c = ' ' ∨ c = '\t' ∨ c = '\n' ∨ c = '\r' ∨ c = '\x0b' ∨ c = '\x0c'

/-- Python's `str.strip()` with no argument: remove leading and trailing
whitespace. -/
def py_strip (s : String) : String :=
  String.mk (((s.data.dropWhile py_is_space).reverse.dropWhile py_is_space).reverse)

/-- Python `repr` of a list of strings, as interpolated by
`CalledProcessError.__str__`. -/
def pyListRepr (command : List String) : String :=
  "[" ++ String.intercalate ", " (command.map fun a => "\x27" ++ a ++ "\x27") ++ "]"

/-- `str(exc)` for `subprocess.CalledProcessError` with a positive return
code: `"Command '%s' returned non-zero exit status %d." % (cmd, returncode)`. -/
def called_process_error_str (command : List String) (returncode : Nat) : String :=
  "Command \x27" ++ pyListRepr command ++ "\x27 returned non-zero exit status " ++
    toString returncode ++ "."

/-- The diagnostic appended to `errors` for one failing command form
(app.py lines 117-125 and 166-174): the not-found message on
`FileNotFoundError`, and `exc.stderr.strip() if exc.stderr else str(exc)` on
`CalledProcessError`.  Python's truthiness test is on the *unstripped*
stderr, so a whitespace-only stderr strips to the empty diagnostic. -/
def failure_diagnostic (command : List String) (r : ProcResult) : String :=
  match r with
  | .notFound => command_not_found_message command
  | .exited exitStatus _ stderr =>
      if stderr = "" then called_process_error_str command exitStatus else py_strip stderr

/-- The `details` blocks built on a successful start
(app.py lines 127-135): `["Command executed:", " ".join(command)]` plus a
`Standard output` block when the stripped stdout is non-empty and a
`Standard error` block when the stripped stderr is non-empty, joined by
blank lines. -/
def start_success_details (command : List String) (stdout stderr : String) : String :=
  String.intercalate "\n\n"
    (["Command executed:", String.intercalate " " command] ++
     (if py_strip stdout = "" then [] else ["Standard output:\n" ++ py_strip stdout]) ++
     (if py_strip stderr = "" then [] else ["Standard error:\n" ++ py_strip stderr]))

/-- The fallback loop of `start_service_via_compose` (app.py lines 106-142),
with the accumulated `errors` list as an explicit argument (it starts empty).
Each iteration either returns the success tuple at once or appends one
diagnostic and continues; after the loop the function returns the failure
tuple whose details are `"\n\n".join(errors) if errors else "Unknown error"`. -/
def start_loop (env : SpawnEnv) (service_name : String) :
    List (List String) → List String → Bool × String × String
  | [], errors =>
      (false,
       "Failed to start service \x27" ++ service_name ++ "\x27. See details below.",
       if errors = [] then "Unknown error" else String.intercalate "\n\n" errors)
  | command :: rest, errors =>
      match env command with
      | .notFound =>
          start_loop env service_name rest (errors ++ [command_not_found_message command])
      | .exited exitStatus stdout stderr =>
          if exitStatus = 0 then
            (true,
             "Service \x27" ++ service_name ++ "\x27 started successfully.",
             start_success_details command stdout stderr)
          else
            start_loop env service_name rest
              (errors ++ [failure_diagnostic command (.exited exitStatus stdout stderr)])

/-- `start_service_via_compose` (app.py lines 80-142).  Returns the tuple
`(succeeded, message, details)`. -/
def start_service_via_compose (compose_file_exists : Bool) (compose_file_path : String)
    (env : SpawnEnv) (service_name : String) : Bool × String × String :=
  if !compose_file_exists then
    (false,
     "Unable to locate docker-compose.yml at " ++ compose_file_path ++ ".",
     "Ensure the project is checked out with its Docker configuration.")
  else
    start_loop env service_name (start_commands_to_try service_name) []

/-- The stream normalization of a successful log fetch (app.py lines
176-184): `stdout`/`stderr` are stripped; if both are non-empty they are
joined by a blank line, if exactly one is non-empty it is used alone, and
if both are empty the sentinel `"No log output was produced."` results. -/
def normalized_log_text (stdout stderr : String) : String :=
  if py_strip stdout ≠ "" ∧ py_strip stderr ≠ "" then py_strip stdout ++ "\n\n" ++ py_strip stderr
  else if py_strip stdout ≠ "" then py_strip stdout
  else if py_strip stderr ≠ "" then py_strip stderr
  else "No log output was produced."

/-- The fallback loop of `fetch_service_logs` (app.py lines 155-187), with
the accumulated `errors` list explicit.  On the first zero-status form it
returns `available = true` with the normalized stream text. -/
def logs_loop (env : SpawnEnv) :
    List (List String) → List String → Bool × String
  | [], errors =>
      (false, if errors = [] then "Unknown error" else String.intercalate "\n\n" errors)
  | command :: rest, errors =>
      match env command with
      | .notFound =>
          logs_loop env rest (errors ++ [command_not_found_message command])
      | .exited exitStatus stdout stderr =>
          if exitStatus = 0 then
            (true, normalized_log_text stdout stderr)
          else
            logs_loop env rest
              (errors ++ [failure_diagnostic command (.exited exitStatus stdout stderr)])

/-- `fetch_service_logs` (app.py lines 145-187).  Returns the tuple
`(available, text)`. -/
def fetch_service_logs (compose_file_exists : Bool) (env : SpawnEnv)
    (service_name : String) : Bool × String :=
  if !compose_file_exists then
    (false, "docker-compose.yml is missing. Unable to fetch logs.")
  else
    logs_loop env (logs_commands_to_try service_name) []

/-- Ghost observer of the fallback loop: the diagnostics recorded for the
forms actually attempted, one entry per failing form in attempt order, and
nothing for or after the first zero-status form.  Mirrors the `errors`
accumulation of app.py lines 108-125 / 157-174. -/
def attempt_diagnostics (env : SpawnEnv) : List (List String) → List String
  | [] => []
  | command :: rest =>
      match env command with
      | .notFound => command_not_found_message command :: attempt_diagnostics env rest
      | .exited exitStatus stdout stderr =>
          if exitStatus = 0 then []
          else failure_diagnostic command (.exited exitStatus stdout stderr) ::
                 attempt_diagnostics env rest

/-- Ghost observer: how many child processes the fallback loop spawns for a
given form list (one per form attempted, stopping after the first
zero-status form).  `FileNotFoundError` still counts as an attempted
invocation of that form. -/
def attempt_count (env : SpawnEnv) : List (List String) → Nat
  | [] => 0
  | command :: rest =>
      match env command with
      | .notFound => 1 + attempt_count env rest
      | .exited exitStatus _ _ =>
          if exitStatus = 0 then 1 else 1 + attempt_count env rest

/-- Number of command-form invocations `start_service_via_compose` performs:
zero when the manifest check at app.py line 95 short-circuits. -/
def start_invocation_count (compose_file_exists : Bool) (env : SpawnEnv)
    (service_name : String) : Nat :=
  if !compose_file_exists then 0
  else attempt_count env (start_commands_to_try service_name)

/-- Number of command-form invocations `fetch_service_logs` performs:
zero when the manifest check at app.py line 148 short-circuits. -/
def logs_invocation_count (compose_file_exists : Bool) (env : SpawnEnv)
    (service_name : String) : Nat :=
  if !compose_file_exists then 0
  else attempt_count env (logs_commands_to_try service_name)

/-- One command form fails when its program is missing or its process exits
with a nonzero status. -/
def form_fails (env : SpawnEnv) (command : List String) : Bool :=
  match env command with
  | .notFound => true
  | .exited exitStatus _ _ => exitStatus ≠ 0

/-- The record written into `st.session_state[SERVICE_STATUS_KEY]` for one
service (app.py lines 228-233). -/
structure ServiceStatus where
  success : Bool
  message : String
  details : String
  logs : String
deriving DecidableEq

/-- The session-state status store: a dictionary keyed by service
identifier. -/
def StatusStore : Type := String → Option ServiceStatus

/-- Dictionary assignment `status_store[identifier] = status`
(app.py line 228). -/
def recordStatus (store : StatusStore) (identifier : String)
    (status : ServiceStatus) : StatusStore :=
  fun key => if key = identifier then some status else store key

/-- Dictionary lookup `status_store.get(identifier)` (app.py line 235). -/
def readStatus (store : StatusStore) (identifier : String) : Option ServiceStatus :=
  store identifier

/-- The store created by `initialize_session_state` (app.py lines 74-75). -/
def emptyStore : StatusStore := fun _ => none

/-- The fixed `logs` text stored when the start failed (app.py line 222). -/
def flow_failure_logs : String :=
  "Service failed to start. Review the command output for more details."

/-- One user-triggered press of a start button: the manifest state, the
process environment at that moment, the rendered manifest path, and the
pipeline node whose button was pressed. -/
structure FlowStep where
  compose_file_exists : Bool
  compose_file_path : String
  env : SpawnEnv
  node : ServiceNode

/-- The body of the start-button branch of `render_service_controls`
(app.py lines 199-233) for one pressed node, together with a ghost flag
recording whether `fetch_service_logs` was invoked.  If the manifest is
missing the function returns before any button is rendered (line 204), so
the store is unchanged.  Otherwise `start_service_via_compose` runs; logs
are fetched only when it succeeded, else the fixed failure text is used;
and the record is written under the node's identifier, its `logs` field
defaulting to `"No logs available."` when `logs_success` is false and
`logs` is empty (Python truthiness of `logs_success or logs`). -/
def start_flow (step : FlowStep) (store : StatusStore) : StatusStore × Bool :=
  if !step.compose_file_exists then
    (store, false)
  else
    let r := start_service_via_compose step.compose_file_exists
               step.compose_file_path step.env step.node.compose_service
    let fetched : Bool × Bool × String :=
      if r.1 then
        let l := fetch_service_logs step.compose_file_exists step.env
                   step.node.compose_service
        (true, l.1, l.2)
      else
        (false, false, flow_failure_logs)
    (recordStatus store step.node.identifier
      { success := r.1
        message := r.2.1
        details := r.2.2
        logs := if fetched.2.1 = true ∨ fetched.2.2 ≠ "" then fetched.2.2
                else "No logs available." },
     fetched.1)

/-- A whole session: the store after a sequence of start-button presses. -/
def run_flow : List FlowStep → StatusStore → StatusStore
  | [], store => store
  | step :: rest, store => run_flow rest (start_flow step store).1

/-! ### Helper lemmas about the fallback loops -/

theorem form_fails_exited_ne_zero {env : SpawnEnv} {c : List String}
    {code : Nat} {out err : String} (h : env c = .exited code out err)
    (hf : form_fails env c = true) : code ≠ 0 := by
  simp [form_fails, h] at hf
  exact hf

theorem attempt_diagnostics_cons_fail (env : SpawnEnv) (c : List String)
    (rest : List (List String)) (h : form_fails env c = true) :
    attempt_diagnostics env (c :: rest) =
      failure_diagnostic c (env c) :: attempt_diagnostics env rest := by
  cases hc : env c with
  | notFound => simp [attempt_diagnostics, failure_diagnostic, hc]
  | exited code out err =>
      have hne : code ≠ 0 := form_fails_exited_ne_zero hc h
      simp [attempt_diagnostics, hc, hne]

theorem attempt_count_cons_fail (env : SpawnEnv) (c : List String)
    (rest : List (List String)) (h : form_fails env c = true) :
    attempt_count env (c :: rest) = 1 + attempt_count env rest := by
  cases hc : env c with
  | notFound => simp [attempt_count, hc]
  | exited code out err =>
      have hne : code ≠ 0 := form_fails_exited_ne_zero hc h
      simp [attempt_count, hc, hne]

theorem start_loop_cons_fail (env : SpawnEnv) (service_name : String)
    (c : List String) (rest : List (List String)) (errors : List String)
    (h : form_fails env c = true) :
    start_loop env service_name (c :: rest) errors =
      start_loop env service_name rest (errors ++ [failure_diagnostic c (env c)]) := by
  cases hc : env c with
  | notFound => simp [start_loop, failure_diagnostic, hc]
  | exited code out err =>
      have hne : code ≠ 0 := form_fails_exited_ne_zero hc h
      simp [start_loop, hc, hne]

theorem start_loop_cons_success (env : SpawnEnv) (service_name : String)
    (c : List String) (rest : List (List String)) (errors : List String)
    (stdout stderr : String) (h : env c = .exited 0 stdout stderr) :
    start_loop env service_name (c :: rest) errors =
      (true,
       "Service \x27" ++ service_name ++ "\x27 started successfully.",
       start_success_details c stdout stderr) := by
  simp [start_loop, h]

theorem logs_loop_cons_fail (env : SpawnEnv)
    (c : List String) (rest : List (List String)) (errors : List String)
    (h : form_fails env c = true) :
    logs_loop env (c :: rest) errors =
      logs_loop env rest (errors ++ [failure_diagnostic c (env c)]) := by
  cases hc : env c with
  | notFound => simp [logs_loop, failure_diagnostic, hc]
  | exited code out err =>
      have hne : code ≠ 0 := form_fails_exited_ne_zero hc h
      simp [logs_loop, hc, hne]

theorem logs_loop_cons_success (env : SpawnEnv)
    (c : List String) (rest : List (List String)) (errors : List String)
    (stdout stderr : String) (h : env c = .exited 0 stdout stderr) :
    logs_loop env (c :: rest) errors = (true, normalized_log_text stdout stderr) := by
  simp [logs_loop, h]

theorem start_loop_all_fail (env : SpawnEnv) (service_name : String) :
    ∀ (forms : List (List String)) (errors : List String),
      (∀ c ∈ forms, form_fails env c = true) →
      start_loop env service_name forms errors =
        start_loop env service_name [] (errors ++ attempt_diagnostics env forms) := by
  intro forms
  induction forms with
  | nil => intro errors _; simp [attempt_diagnostics]
  | cons c rest ih =>
      intro errors hfail
      have hc : form_fails env c = true := hfail c (by simp)
      have hrest : ∀ x ∈ rest, form_fails env x = true :=
        fun x hx => hfail x (by simp [hx])
      rw [start_loop_cons_fail env service_name c rest errors hc, ih _ hrest,
        attempt_diagnostics_cons_fail env c rest hc]
      simp

theorem logs_loop_all_fail (env : SpawnEnv) :
    ∀ (forms : List (List String)) (errors : List String),
      (∀ c ∈ forms, form_fails env c = true) →
      logs_loop env forms errors =
        logs_loop env [] (errors ++ attempt_diagnostics env forms) := by
  intro forms
  induction forms with
  | nil => intro errors _; simp [attempt_diagnostics]
  | cons c rest ih =>
      intro errors hfail
      have hc : form_fails env c = true := hfail c (by simp)
      have hrest : ∀ x ∈ rest, form_fails env x = true :=
        fun x hx => hfail x (by simp [hx])
      rw [logs_loop_cons_fail env c rest errors hc, ih _ hrest,
        attempt_diagnostics_cons_fail env c rest hc]
      simp

theorem start_loop_first_success (env : SpawnEnv) (service_name : String) :
    ∀ (front : List (List String)) (rest : List (List String))
      (command : List String) (stdout stderr : String) (errors : List String),
      (∀ c ∈ front, form_fails env c = true) →
      env command = .exited 0 stdout stderr →
      start_loop env service_name (front ++ command :: rest) errors =
        (true,
         "Service \x27" ++ service_name ++ "\x27 started successfully.",
         start_success_details command stdout stderr) := by
  intro front
  induction front with
  | nil =>
      intro rest command stdout stderr errors _ hs
      simpa using start_loop_cons_success env service_name command rest errors stdout stderr hs
  | cons c cs ih =>
      intro rest command stdout stderr errors hfail hs
      have hc : form_fails env c = true := hfail c (by simp)
      have hcs : ∀ x ∈ cs, form_fails env x = true :=
        fun x hx => hfail x (by simp [hx])
      rw [List.cons_append, start_loop_cons_fail env service_name c _ errors hc]
      exact ih rest command stdout stderr _ hcs hs

theorem logs_loop_first_success (env : SpawnEnv) :
    ∀ (front : List (List String)) (rest : List (List String))
      (command : List String) (stdout stderr : String) (errors : List String),
      (∀ c ∈ front, form_fails env c = true) →
      env command = .exited 0 stdout stderr →
      logs_loop env (front ++ command :: rest) errors =
        (true, normalized_log_text stdout stderr) := by
  intro front
  induction front with
  | nil =>
      intro rest command stdout stderr errors _ hs
      simpa using logs_loop_cons_success env command rest errors stdout stderr hs
  | cons c cs ih =>
      intro rest command stdout stderr errors hfail hs
      have hc : form_fails env c = true := hfail c (by simp)
      have hcs : ∀ x ∈ cs, form_fails env x = true :=
        fun x hx => hfail x (by simp [hx])
      rw [List.cons_append, logs_loop_cons_fail env c _ errors hc]
      exact ih rest command stdout stderr _ hcs hs

theorem attempt_diagnostics_first_success (env : SpawnEnv) :
    ∀ (front : List (List String)) (rest : List (List String))
      (command : List String) (stdout stderr : String),
      (∀ c ∈ front, form_fails env c = true) →
      env command = .exited 0 stdout stderr →
      attempt_diagnostics env (front ++ command :: rest) =
        attempt_diagnostics env front := by
  intro front
  induction front with
  | nil =>
      intro rest command stdout stderr _ hs
      simp [attempt_diagnostics, hs]
  | cons c cs ih =>
      intro rest command stdout stderr hfail hs
      have hc : form_fails env c = true := hfail c (by simp)
      have hcs : ∀ x ∈ cs, form_fails env x = true :=
        fun x hx => hfail x (by simp [hx])
      rw [List.cons_append, attempt_diagnostics_cons_fail env c _ hc,
        attempt_diagnostics_cons_fail env c cs hc, ih rest command stdout stderr hcs hs]

theorem start_loop_false_all_fail (env : SpawnEnv) (service_name : String) :
    ∀ (forms : List (List String)) (errors : List String),
      (start_loop env service_name forms errors).1 = false →
      ∀ c ∈ forms, form_fails env c = true := by
  intro forms
  induction forms with
  | nil => intro errors _ c hc; simp at hc
  | cons c rest ih =>
      intro errors hres x hx
      cases h : env c with
      | notFound =>
          have hc : form_fails env c = true := by simp [form_fails, h]
          rw [start_loop_cons_fail env service_name c rest errors hc] at hres
          rcases List.mem_cons.mp hx with hx1 | hx2
          · exact hx1 ▸ hc
          · exact ih _ hres x hx2
      | exited code stdout stderr =>
          by_cases hz : code = 0
          · subst hz
            rw [start_loop_cons_success env service_name c rest errors stdout stderr h] at hres
            simp at hres
          · have hc : form_fails env c = true := by simp [form_fails, h, hz]
            rw [start_loop_cons_fail env service_name c rest errors hc] at hres
            rcases List.mem_cons.mp hx with hx1 | hx2
            · exact hx1 ▸ hc
            · exact ih _ hres x hx2

theorem logs_loop_false_all_fail (env : SpawnEnv) :
    ∀ (forms : List (List String)) (errors : List String),
      (logs_loop env forms errors).1 = false →
      ∀ c ∈ forms, form_fails env c = true := by
  intro forms
  induction forms with
  | nil => intro errors _ c hc; simp at hc
  | cons c rest ih =>
      intro errors hres x hx
      cases h : env c with
      | notFound =>
          have hc : form_fails env c = true := by simp [form_fails, h]
          rw [logs_loop_cons_fail env c rest errors hc] at hres
          rcases List.mem_cons.mp hx with hx1 | hx2
          · exact hx1 ▸ hc
          · exact ih _ hres x hx2
      | exited code stdout stderr =>
          by_cases hz : code = 0
          · subst hz
            rw [logs_loop_cons_success env c rest errors stdout stderr h] at hres
            simp at hres
          · have hc : form_fails env c = true := by simp [form_fails, h, hz]
            rw [logs_loop_cons_fail env c rest errors hc] at hres
            rcases List.mem_cons.mp hx with hx1 | hx2
            · exact hx1 ▸ hc
            · exact ih _ hres x hx2

/-! ### String facts -/

theorem append_blank_line_ne_empty (a b : String) : a ++ "\n\n" ++ b ≠ "" := by
  intro h
  have h2 := congrArg String.length h
  rw [String.length_append, String.length_append] at h2
  have he : ("\n\n").length = 2 := rfl
  have hz : ("" : String).length = 0 := rfl
  rw [he, hz] at h2
  omega

theorem append_blank_line_ne_unknown (a b : String) :
    a ++ "\n\n" ++ b ≠ "Unknown error" := by
  intro h
  have hmem : ('\n') ∈ (a ++ "\n\n" ++ b).data := by
    have hnl : ('\n') ∈ "\n\n".data := by decide
    simp only [String.data_append]
    exact List.mem_append.mpr (Or.inl (List.mem_append.mpr (Or.inr hnl)))
  rw [h] at hmem
  exact absurd hmem (by decide)

theorem normalized_log_text_ne_empty (stdout stderr : String) :
    normalized_log_text stdout stderr ≠ "" := by
  unfold normalized_log_text
  by_cases ho : py_strip stdout = "" <;> by_cases he : py_strip stderr = "" <;>
    simp [ho, he]
  exact append_blank_line_ne_empty _ _

theorem intercalate_pair (s a b : String) :
    String.intercalate s [a, b] = a ++ s ++ b := by
  simp [String.intercalate, String.intercalate.go]

/-! ### Claims -/

/-- Claim C7: `PIPELINE_EDGES` contains exactly `len(PIPELINE_STEPS) - 1`
edges, the i-th edge connecting the identifier of stage i to the identifier
of stage i+1 in declaration order, and every identifier appearing in an
edge is the identifier of some declared stage. -/
theorem pipeline_edges_consecutive :
    PIPELINE_EDGES.length = PIPELINE_STEPS.length - 1 ∧
    (∀ i (h : i < PIPELINE_EDGES.length),
      PIPELINE_EDGES.get ⟨i, h⟩ =
        ((PIPELINE_STEPS.getD i default).identifier,
         (PIPELINE_STEPS.getD (i + 1) default).identifier)) ∧
    (∀ e ∈ PIPELINE_EDGES,
      (∃ n ∈ PIPELINE_STEPS, n.identifier = e.1) ∧
      (∃ n ∈ PIPELINE_STEPS, n.identifier = e.2)) := by
  refine ⟨by decide, ?_, by decide⟩
  decide

/-- Witness for `pipeline_edges_consecutive`: the first edge links the
ingestion stage to the deduplication stage. -/
theorem pipeline_edges_consecutive_witness :
    PIPELINE_EDGES.get ⟨0, by decide⟩ =
      ("dataingestion-service", "datadeduplication-service") :=
  (pipeline_edges_consecutive.2.1 0 (by decide)).trans (by decide)

/-- Claim C6: the status-store write (dictionary assignment under the stage
identifier) is idempotent — recording the same record twice leaves
`read(id)` as after one write — and last-write-wins: after recording `o1`
then `o2`, `read(id)` returns exactly `o2`, never a merge. -/
theorem record_status_idempotent_last_write_wins :
    (∀ (store : StatusStore) (id : String) (o : ServiceStatus),
      readStatus (recordStatus (recordStatus store id o) id o) id =
        readStatus (recordStatus store id o) id) ∧
    (∀ (store : StatusStore) (id : String) (o1 o2 : ServiceStatus),
      readStatus (recordStatus (recordStatus store id o1) id o2) id = some o2) := by
  constructor
  · intro store id o
    simp [readStatus, recordStatus]
  · intro store id o1 o2
    simp [readStatus, recordStatus]

/-- Claim C3: when the manifest file is absent both operations return a
failure whose message mentions the manifest (for the start operation the
message contains the manifest path), and no command form is attempted: the
invocation count of both operations is zero. -/
theorem manifest_missing_short_circuits (env : SpawnEnv)
    (compose_file_path service_name : String) :
    start_service_via_compose false compose_file_path env service_name =
      (false,
       "Unable to locate docker-compose.yml at " ++ compose_file_path ++ ".",
       "Ensure the project is checked out with its Docker configuration.") ∧
    fetch_service_logs false env service_name =
      (false, "docker-compose.yml is missing. Unable to fetch logs.") ∧
    start_invocation_count false env service_name = 0 ∧
    logs_invocation_count false env service_name = 0 :=
  ⟨rfl, rfl, rfl, rfl⟩

/-- Claim C1: for every ordered form list, the executor loop tries the
forms in order and, at the first form whose process exits with status zero,
returns immediately with `succeeded = true`, the success message and the
details built from that form's command line and captured stdout/stderr;
later forms are not attempted and the diagnostic trail contains only the
earlier failures.  In particular, for the two forms of
`start_service_via_compose`, when the first form is not found and the
second succeeds, the result reflects the second form's success and the
trail mentions only the first form's not-found failure. -/
theorem executor_fallback_first_success (env : SpawnEnv) (service_name : String)
    (front rest : List (List String)) (command : List String)
    (stdout stderr : String)
    (hfail : ∀ c ∈ front, form_fails env c = true)
    (hsucc : env command = .exited 0 stdout stderr) :
    start_loop env service_name (front ++ command :: rest) [] =
      (true,
       "Service \x27" ++ service_name ++ "\x27 started successfully.",
       start_success_details command stdout stderr) ∧
    attempt_diagnostics env (front ++ command :: rest) =
      attempt_diagnostics env front ∧
    (∀ (compose_file_path stdout2 stderr2 : String),
      env (["docker", "compose", "up", "-d", service_name]) = .notFound →
      env (["docker-compose", "up", "-d", service_name]) = .exited 0 stdout2 stderr2 →
      start_service_via_compose true compose_file_path env service_name =
        (true,
         "Service \x27" ++ service_name ++ "\x27 started successfully.",
         start_success_details (["docker-compose", "up", "-d", service_name])
           stdout2 stderr2) ∧
      attempt_diagnostics env (start_commands_to_try service_name) =
        [command_not_found_message (["docker", "compose", "up", "-d", service_name])]) := by
  refine ⟨start_loop_first_success env service_name front rest command stdout stderr []
    hfail hsucc,
    attempt_diagnostics_first_success env front rest command stdout stderr hfail hsucc,
    ?_⟩
  intro compose_file_path stdout2 stderr2 h1 h2
  have hf1 : form_fails env (["docker", "compose", "up", "-d", service_name]) = true := by
    simp [form_fails, h1]
  have hone : ∀ c ∈ [["docker", "compose", "up", "-d", service_name]],
      form_fails env c = true := by
    intro c hc
    rw [List.mem_singleton.mp hc]
    exact hf1
  constructor
  · have key := start_loop_first_success env service_name
      [["docker", "compose", "up", "-d", service_name]] []
      (["docker-compose", "up", "-d", service_name]) stdout2 stderr2 [] hone h2
    simpa [start_service_via_compose, start_commands_to_try] using key
  · simp [start_commands_to_try, attempt_diagnostics, h1, h2]

/-- Process environment of the fallback scenario: every `docker ...`
invocation raises `FileNotFoundError`, the legacy `docker-compose` binary
succeeds with some stdout and empty stderr. -/
def env_fallback_demo : SpawnEnv := fun command =>
  if command.headD "" = "docker" then .notFound
  else .exited 0 "Container started" ""

/-- Witness for `executor_fallback_first_success`: concrete two-form run
where the first form is not found and the second succeeds. -/
theorem executor_fallback_first_success_witness :
    start_service_via_compose true "/project/docker-compose.yml" env_fallback_demo
        "dataingestion-service" =
      (true, "Service \x27dataingestion-service\x27 started successfully.",
       start_success_details (["docker-compose", "up", "-d", "dataingestion-service"])
         "Container started" "") ∧
    attempt_diagnostics env_fallback_demo
        (start_commands_to_try "dataingestion-service") =
      [command_not_found_message
        (["docker", "compose", "up", "-d", "dataingestion-service"])] :=
  (executor_fallback_first_success env_fallback_demo "dataingestion-service"
      [["docker", "compose", "up", "-d", "dataingestion-service"]] []
      (["docker-compose", "up", "-d", "dataingestion-service"])
      "Container started" "" (by decide) (by decide)).2.2
    "/project/docker-compose.yml" "Container started" "" (by decide) (by decide)

/-- Claim C5: a successful log retrieval (some form exits with status zero)
returns `available = true` and normalizes the streams: both stripped
streams non-empty → stdout, a separating blank line, stderr; exactly one
non-empty → that one alone; both empty → the sentinel
`"No log output was produced."`, still with `available = true`. -/
theorem fetch_logs_success_normalization (env : SpawnEnv)
    (front rest : List (List String)) (command : List String)
    (stdout stderr : String) (errors : List String)
    (hfail : ∀ c ∈ front, form_fails env c = true)
    (hsucc : env command = .exited 0 stdout stderr) :
    logs_loop env (front ++ command :: rest) errors =
      (true, normalized_log_text stdout stderr) ∧
    (py_strip stdout ≠ "" → py_strip stderr ≠ "" →
      normalized_log_text stdout stderr =
        py_strip stdout ++ "\n\n" ++ py_strip stderr) ∧
    (py_strip stdout ≠ "" → py_strip stderr = "" →
      normalized_log_text stdout stderr = py_strip stdout) ∧
    (py_strip stdout = "" → py_strip stderr ≠ "" →
      normalized_log_text stdout stderr = py_strip stderr) ∧
    (py_strip stdout = "" → py_strip stderr = "" →
      normalized_log_text stdout stderr = "No log output was produced.") := by
  refine ⟨logs_loop_first_success env front rest command stdout stderr errors hfail hsucc,
    ?_, ?_, ?_, ?_⟩ <;> intro h1 h2 <;> simp [normalized_log_text, h1, h2]

/-- Process environment of the log-fetch scenario from the specification:
the modern form succeeds with stdout `"line1\nline2"` and empty stderr. -/
def env_logs_demo : SpawnEnv := fun command =>
  if command.headD "" = "docker" then .exited 0 "line1\nline2" "" else .notFound

/-- Witness for `fetch_logs_success_normalization`: the fetched snapshot is
`(available = true, text = "line1\nline2")`. -/
theorem fetch_logs_success_normalization_witness :
    fetch_service_logs true env_logs_demo "dataingestion-service" =
      (true, "line1\nline2") := by
  have h := (fetch_logs_success_normalization env_logs_demo []
      [["docker-compose", "logs", "--tail", "200", "dataingestion-service"]]
      (["docker", "compose", "logs", "--tail", "200", "dataingestion-service"])
      "line1\nline2" "" [] (by decide) (by decide)).1
  have h2 : fetch_service_logs true env_logs_demo "dataingestion-service" =
      logs_loop env_logs_demo (logs_commands_to_try "dataingestion-service") [] := rfl
  rw [h2]
  have h3 : logs_commands_to_try "dataingestion-service" =
      [] ++ (["docker", "compose", "logs", "--tail", "200", "dataingestion-service"]) ::
        [["docker-compose", "logs", "--tail", "200", "dataingestion-service"]] := rfl
  rw [h3, h]
  decide

theorem attempt_diagnostics_nil (env : SpawnEnv) : attempt_diagnostics env [] = [] := by
  simp [attempt_diagnostics]

theorem attempt_diagnostics_two_fail (env : SpawnEnv) (c1 c2 : List String)
    (h1 : form_fails env c1 = true) (h2 : form_fails env c2 = true) :
    attempt_diagnostics env [c1, c2] =
      [failure_diagnostic c1 (env c1), failure_diagnostic c2 (env c2)] := by
  rw [attempt_diagnostics_cons_fail env c1 [c2] h1,
    attempt_diagnostics_cons_fail env c2 [] h2, attempt_diagnostics_nil]

/-- Claim C2: when every command form fails, both operations return
`succeeded = false`, and the returned details are exactly the per-form
diagnostics — one for each attempted form, in attempt order — concatenated
with a blank-line separator between consecutive blocks. -/
theorem all_forms_fail_diagnostics (env : SpawnEnv)
    (compose_file_path service_name : String)
    (hstart : ∀ c ∈ start_commands_to_try service_name, form_fails env c = true)
    (hlogs : ∀ c ∈ logs_commands_to_try service_name, form_fails env c = true) :
    start_service_via_compose true compose_file_path env service_name =
      (false,
       "Failed to start service \x27" ++ service_name ++ "\x27. See details below.",
       failure_diagnostic (["docker", "compose", "up", "-d", service_name])
           (env (["docker", "compose", "up", "-d", service_name])) ++ "\n\n" ++
         failure_diagnostic (["docker-compose", "up", "-d", service_name])
           (env (["docker-compose", "up", "-d", service_name]))) ∧
    attempt_diagnostics env (start_commands_to_try service_name) =
      [failure_diagnostic (["docker", "compose", "up", "-d", service_name])
         (env (["docker", "compose", "up", "-d", service_name])),
       failure_diagnostic (["docker-compose", "up", "-d", service_name])
         (env (["docker-compose", "up", "-d", service_name]))] ∧
    fetch_service_logs true env service_name =
      (false,
       failure_diagnostic (["docker", "compose", "logs", "--tail", "200", service_name])
           (env (["docker", "compose", "logs", "--tail", "200", service_name])) ++
         "\n\n" ++
         failure_diagnostic (["docker-compose", "logs", "--tail", "200", service_name])
           (env (["docker-compose", "logs", "--tail", "200", service_name]))) ∧
    attempt_diagnostics env (logs_commands_to_try service_name) =
      [failure_diagnostic (["docker", "compose", "logs", "--tail", "200", service_name])
         (env (["docker", "compose", "logs", "--tail", "200", service_name])),
       failure_diagnostic (["docker-compose", "logs", "--tail", "200", service_name])
         (env (["docker-compose", "logs", "--tail", "200", service_name]))] := by
  have hf1 : form_fails env (["docker", "compose", "up", "-d", service_name]) = true :=
    hstart _ (by simp [start_commands_to_try])
  have hf2 : form_fails env (["docker-compose", "up", "-d", service_name]) = true :=
    hstart _ (by simp [start_commands_to_try])
  have hg1 : form_fails env
      (["docker", "compose", "logs", "--tail", "200", service_name]) = true :=
    hlogs _ (by simp [logs_commands_to_try])
  have hg2 : form_fails env
      (["docker-compose", "logs", "--tail", "200", service_name]) = true :=
    hlogs _ (by simp [logs_commands_to_try])
  have hds : attempt_diagnostics env (start_commands_to_try service_name) =
      [failure_diagnostic (["docker", "compose", "up", "-d", service_name])
         (env (["docker", "compose", "up", "-d", service_name])),
       failure_diagnostic (["docker-compose", "up", "-d", service_name])
         (env (["docker-compose", "up", "-d", service_name]))] :=
    attempt_diagnostics_two_fail env _ _ hf1 hf2
  have hdl : attempt_diagnostics env (logs_commands_to_try service_name) =
      [failure_diagnostic (["docker", "compose", "logs", "--tail", "200", service_name])
         (env (["docker", "compose", "logs", "--tail", "200", service_name])),
       failure_diagnostic (["docker-compose", "logs", "--tail", "200", service_name])
         (env (["docker-compose", "logs", "--tail", "200", service_name]))] :=
    attempt_diagnostics_two_fail env _ _ hg1 hg2
  refine ⟨?_, hds, ?_, hdl⟩
  · have e1 : start_service_via_compose true compose_file_path env service_name =
        start_loop env service_name (start_commands_to_try service_name) [] := rfl
    rw [e1, start_loop_all_fail env service_name _ [] hstart, hds]
    simp [start_loop, intercalate_pair]
  · have e1 : fetch_service_logs true env service_name =
        logs_loop env (logs_commands_to_try service_name) [] := rfl
    rw [e1, logs_loop_all_fail env _ [] hlogs, hdl]
    simp [logs_loop, intercalate_pair]

/-- Process environment in which no external program exists. -/
def env_not_found_demo : SpawnEnv := fun _ => ProcResult.notFound

/-- Witness for `all_forms_fail_diagnostics`: both forms missing gives
both not-found diagnostics, in order, separated by a blank line. -/
theorem all_forms_fail_diagnostics_witness :
    start_service_via_compose true "/project/docker-compose.yml" env_not_found_demo
        "dataingestion-service" =
      (false,
       "Failed to start service \x27dataingestion-service\x27. See details below.",
       "Command not found: docker compose\n\nCommand not found: docker-compose") ∧
    fetch_service_logs true env_not_found_demo "dataingestion-service" =
      (false,
       "Command not found: docker compose\n\nCommand not found: docker-compose") := by
  have h := all_forms_fail_diagnostics env_not_found_demo "/project/docker-compose.yml"
    "dataingestion-service" (by decide) (by decide)
  exact ⟨h.1.trans (by decide), h.2.2.1.trans (by decide)⟩

theorem start_two_form_false_details (env : SpawnEnv) (service_name : String)
    (c1 c2 : List String)
    (hres : (start_loop env service_name [c1, c2] []).1 = false) :
    attempt_diagnostics env [c1, c2] ≠ [] ∧
    (attempt_diagnostics env [c1, c2]).length = 2 ∧
    (start_loop env service_name [c1, c2] []).2.2 =
      String.intercalate "\n\n" (attempt_diagnostics env [c1, c2]) ∧
    (start_loop env service_name [c1, c2] []).2.2 ≠ "Unknown error" := by
  have hall : ∀ c ∈ [c1, c2], form_fails env c = true :=
    start_loop_false_all_fail env service_name [c1, c2] [] hres
  have h1 : form_fails env c1 = true := hall c1 (by simp)
  have h2 : form_fails env c2 = true := hall c2 (by simp)
  have hd := attempt_diagnostics_two_fail env c1 c2 h1 h2
  refine ⟨by rw [hd]; simp, by rw [hd]; simp, ?_, ?_⟩
  · rw [start_loop_all_fail env service_name _ [] hall, hd]
    simp [start_loop]
  · rw [start_loop_all_fail env service_name _ [] hall, hd]
    simp only [start_loop, List.nil_append, intercalate_pair]
    intro hcontra
    exact append_blank_line_ne_unknown _ _ (by simpa using hcontra)

theorem logs_two_form_false_details (env : SpawnEnv) (c1 c2 : List String)
    (hres : (logs_loop env [c1, c2] []).1 = false) :
    attempt_diagnostics env [c1, c2] ≠ [] ∧
    (attempt_diagnostics env [c1, c2]).length = 2 ∧
    (logs_loop env [c1, c2] []).2 =
      String.intercalate "\n\n" (attempt_diagnostics env [c1, c2]) ∧
    (logs_loop env [c1, c2] []).2 ≠ "Unknown error" := by
  have hall : ∀ c ∈ [c1, c2], form_fails env c = true :=
    logs_loop_false_all_fail env [c1, c2] [] hres
  have h1 : form_fails env c1 = true := hall c1 (by simp)
  have h2 : form_fails env c2 = true := hall c2 (by simp)
  have hd := attempt_diagnostics_two_fail env c1 c2 h1 h2
  refine ⟨by rw [hd]; simp, by rw [hd]; simp, ?_, ?_⟩
  · rw [logs_loop_all_fail env _ [] hall, hd]
    simp [logs_loop]
  · rw [logs_loop_all_fail env _ [] hall, hd]
    simp only [logs_loop, List.nil_append, intercalate_pair]
    intro hcontra
    exact append_blank_line_ne_unknown _ _ (by simpa using hcontra)

/-- Claim C10: the `"Unknown error"` fallback of the all-forms-failed
return is unreachable in both functions: every loop iteration that does not
return appends exactly one diagnostic, so whenever the all-failed return is
reached the accumulated errors list has one entry per attempted form (two
entries, hence non-empty), the returned details are their blank-line
concatenation, and the `"Unknown error"` string is never the result. -/
theorem unknown_error_fallback_unreachable (env : SpawnEnv)
    (compose_file_path service_name : String) :
    ((start_service_via_compose true compose_file_path env service_name).1 = false →
      attempt_diagnostics env (start_commands_to_try service_name) ≠ [] ∧
      (attempt_diagnostics env (start_commands_to_try service_name)).length = 2 ∧
      (start_service_via_compose true compose_file_path env service_name).2.2 =
        String.intercalate "\n\n"
          (attempt_diagnostics env (start_commands_to_try service_name)) ∧
      (start_service_via_compose true compose_file_path env service_name).2.2 ≠
        "Unknown error") ∧
    ((fetch_service_logs true env service_name).1 = false →
      attempt_diagnostics env (logs_commands_to_try service_name) ≠ [] ∧
      (attempt_diagnostics env (logs_commands_to_try service_name)).length = 2 ∧
      (fetch_service_logs true env service_name).2 =
        String.intercalate "\n\n"
          (attempt_diagnostics env (logs_commands_to_try service_name)) ∧
      (fetch_service_logs true env service_name).2 ≠ "Unknown error") := by
  constructor
  · intro hres
    exact start_two_form_false_details env service_name
      (["docker", "compose", "up", "-d", service_name])
      (["docker-compose", "up", "-d", service_name]) hres
  · intro hres
    exact logs_two_form_false_details env
      (["docker", "compose", "logs", "--tail", "200", service_name])
      (["docker-compose", "logs", "--tail", "200", service_name]) hres

/-- Process environment in which every program exists but exits with
status 1 and stderr `"permission denied\n"`. -/
def env_exit_fail_demo : SpawnEnv := fun _ => ProcResult.exited 1 "" "permission denied\n"

/-- Witness for `unknown_error_fallback_unreachable`: with both forms
exiting non-zero, the details are the two stripped stderr diagnostics, not
the fallback string. -/
theorem unknown_error_fallback_unreachable_witness :
    (start_service_via_compose true "/project/docker-compose.yml" env_exit_fail_demo
        "dataingestion-service").2.2 = "permission denied\n\npermission denied" ∧
    (start_service_via_compose true "/project/docker-compose.yml" env_exit_fail_demo
        "dataingestion-service").2.2 ≠ "Unknown error" ∧
    (fetch_service_logs true env_exit_fail_demo "dataingestion-service").2 ≠
      "Unknown error" := by
  have h := unknown_error_fallback_unreachable env_exit_fail_demo
    "/project/docker-compose.yml" "dataingestion-service"
  have hs := h.1 (by decide)
  have hl := h.2 (by decide)
  exact ⟨hs.2.2.1.trans (by decide), hs.2.2.2, hl.2.2.2⟩

theorem start_loop_two_form_classify (env : SpawnEnv) (service_name : String)
    (c1 c2 : List String) :
    (∃ front command rest stdout stderr,
       ([c1, c2] : List (List String)) = front ++ command :: rest ∧
       (∀ c ∈ front, form_fails env c = true) ∧
       env command = .exited 0 stdout stderr ∧
       start_loop env service_name [c1, c2] [] =
         (true, "Service \x27" ++ service_name ++ "\x27 started successfully.",
          start_success_details command stdout stderr)) ∨
    ((∀ c ∈ [c1, c2], form_fails env c = true) ∧
     start_loop env service_name [c1, c2] [] =
       (false,
        "Failed to start service \x27" ++ service_name ++ "\x27. See details below.",
        String.intercalate "\n\n" (attempt_diagnostics env [c1, c2]))) := by
  by_cases hf1 : form_fails env c1 = true
  · by_cases hf2 : form_fails env c2 = true
    · right
      have hall : ∀ c ∈ [c1, c2], form_fails env c = true := by
        intro c hc
        rcases List.mem_cons.mp hc with h | h
        · exact h ▸ hf1
        · exact (List.mem_singleton.mp h) ▸ hf2
      refine ⟨hall, ?_⟩
      rw [start_loop_all_fail env service_name _ [] hall,
        attempt_diagnostics_two_fail env c1 c2 hf1 hf2]
      simp [start_loop]
    · have hsucc : ∃ out err, env c2 = .exited 0 out err := by
        cases h2 : env c2 with
        | notFound => exact absurd (by simp [form_fails, h2]) hf2
        | exited code out err =>
            by_cases hz : code = 0
            · subst hz; exact ⟨out, err, rfl⟩
            · exact absurd (by simp [form_fails, h2, hz]) hf2
      obtain ⟨out, err, h2⟩ := hsucc
      left
      refine ⟨[c1], c2, [], out, err, rfl, ?_, h2, ?_⟩
      · intro c hc; rw [List.mem_singleton.mp hc]; exact hf1
      · have key := start_loop_first_success env service_name [c1] [] c2 out err []
          (by intro c hc; rw [List.mem_singleton.mp hc]; exact hf1) h2
        simpa using key
  · have hsucc : ∃ out err, env c1 = .exited 0 out err := by
      cases h1 : env c1 with
      | notFound => exact absurd (by simp [form_fails, h1]) hf1
      | exited code out err =>
          by_cases hz : code = 0
          · subst hz; exact ⟨out, err, rfl⟩
          · exact absurd (by simp [form_fails, h1, hz]) hf1
    obtain ⟨out, err, h1⟩ := hsucc
    left
    exact ⟨[], c1, [c2], out, err, rfl, by simp, h1,
      start_loop_cons_success env service_name c1 [c2] [] out err h1⟩

theorem logs_loop_two_form_classify (env : SpawnEnv) (c1 c2 : List String) :
    (∃ front command rest stdout stderr,
       ([c1, c2] : List (List String)) = front ++ command :: rest ∧
       (∀ c ∈ front, form_fails env c = true) ∧
       env command = .exited 0 stdout stderr ∧
       logs_loop env [c1, c2] [] = (true, normalized_log_text stdout stderr)) ∨
    ((∀ c ∈ [c1, c2], form_fails env c = true) ∧
     logs_loop env [c1, c2] [] =
       (false, String.intercalate "\n\n" (attempt_diagnostics env [c1, c2]))) := by
  by_cases hf1 : form_fails env c1 = true
  · by_cases hf2 : form_fails env c2 = true
    · right
      have hall : ∀ c ∈ [c1, c2], form_fails env c = true := by
        intro c hc
        rcases List.mem_cons.mp hc with h | h
        · exact h ▸ hf1
        · exact (List.mem_singleton.mp h) ▸ hf2
      refine ⟨hall, ?_⟩
      rw [logs_loop_all_fail env _ [] hall,
        attempt_diagnostics_two_fail env c1 c2 hf1 hf2]
      simp [logs_loop]
    · have hsucc : ∃ out err, env c2 = .exited 0 out err := by
        cases h2 : env c2 with
        | notFound => exact absurd (by simp [form_fails, h2]) hf2
        | exited code out err =>
            by_cases hz : code = 0
            · subst hz; exact ⟨out, err, rfl⟩
            · exact absurd (by simp [form_fails, h2, hz]) hf2
      obtain ⟨out, err, h2⟩ := hsucc
      left
      refine ⟨[c1], c2, [], out, err, rfl, ?_, h2, ?_⟩
      · intro c hc; rw [List.mem_singleton.mp hc]; exact hf1
      · have key := logs_loop_first_success env [c1] [] c2 out err []
          (by intro c hc; rw [List.mem_singleton.mp hc]; exact hf1) h2
        simpa using key
  · have hsucc : ∃ out err, env c1 = .exited 0 out err := by
      cases h1 : env c1 with
      | notFound => exact absurd (by simp [form_fails, h1]) hf1
      | exited code out err =>
          by_cases hz : code = 0
          · subst hz; exact ⟨out, err, rfl⟩
          · exact absurd (by simp [form_fails, h1, hz]) hf1
    obtain ⟨out, err, h1⟩ := hsucc
    left
    exact ⟨[], c1, [c2], out, err, rfl, by simp, h1,
      logs_loop_cons_success env c1 [c2] [] out err h1⟩

/-- Claim C8: both operations are total on the embedded model and report
every outcome through their returned value: for every manifest state,
process environment and service name, the result is exactly one of the
enumerated shapes — manifest missing, success at the first zero-status
form, or all forms failed — each a value carrying a success flag and
human-readable message/details. -/
theorem controller_results_total (compose_file_exists : Bool) (env : SpawnEnv)
    (compose_file_path service_name : String) :
    (compose_file_exists = false ∧
      start_service_via_compose compose_file_exists compose_file_path env service_name =
        (false,
         "Unable to locate docker-compose.yml at " ++ compose_file_path ++ ".",
         "Ensure the project is checked out with its Docker configuration.") ∧
      fetch_service_logs compose_file_exists env service_name =
        (false, "docker-compose.yml is missing. Unable to fetch logs.")) ∨
    (compose_file_exists = true ∧
      ((∃ front command rest stdout stderr,
          start_commands_to_try service_name = front ++ command :: rest ∧
          (∀ c ∈ front, form_fails env c = true) ∧
          env command = .exited 0 stdout stderr ∧
          start_service_via_compose compose_file_exists compose_file_path env
              service_name =
            (true, "Service \x27" ++ service_name ++ "\x27 started successfully.",
             start_success_details command stdout stderr)) ∨
       ((∀ c ∈ start_commands_to_try service_name, form_fails env c = true) ∧
        start_service_via_compose compose_file_exists compose_file_path env
            service_name =
          (false,
           "Failed to start service \x27" ++ service_name ++ "\x27. See details below.",
           String.intercalate "\n\n"
             (attempt_diagnostics env (start_commands_to_try service_name))))) ∧
      ((∃ front command rest stdout stderr,
          logs_commands_to_try service_name = front ++ command :: rest ∧
          (∀ c ∈ front, form_fails env c = true) ∧
          env command = .exited 0 stdout stderr ∧
          fetch_service_logs compose_file_exists env service_name =
            (true, normalized_log_text stdout stderr)) ∨
       ((∀ c ∈ logs_commands_to_try service_name, form_fails env c = true) ∧
        fetch_service_logs compose_file_exists env service_name =
          (false,
           String.intercalate "\n\n"
             (attempt_diagnostics env (logs_commands_to_try service_name)))))) := by
  cases compose_file_exists with
  | false => exact Or.inl ⟨rfl, rfl, rfl⟩
  | true =>
      refine Or.inr ⟨rfl, ?_, ?_⟩
      · exact start_loop_two_form_classify env service_name
          (["docker", "compose", "up", "-d", service_name])
          (["docker-compose", "up", "-d", service_name])
      · exact logs_loop_two_form_classify env
          (["docker", "compose", "logs", "--tail", "200", service_name])
          (["docker-compose", "logs", "--tail", "200", service_name])

theorem recordStatus_self (store : StatusStore) (id : String) (st : ServiceStatus) :
    recordStatus store id st id = some st := by
  simp [recordStatus]

theorem logs_loop_true_shape (env : SpawnEnv) :
    ∀ (forms : List (List String)) (errors : List String),
      (logs_loop env forms errors).1 = true →
      ∃ stdout stderr,
        logs_loop env forms errors = (true, normalized_log_text stdout stderr) := by
  intro forms
  induction forms with
  | nil => intro errors h; simp [logs_loop] at h
  | cons c rest ih =>
      intro errors h
      cases hc : env c with
      | notFound =>
          have hf : form_fails env c = true := by simp [form_fails, hc]
          rw [logs_loop_cons_fail env c rest errors hf] at h ⊢
          exact ih _ h
      | exited code out err =>
          by_cases hz : code = 0
          · subst hz
            rw [logs_loop_cons_success env c rest errors out err hc]
            exact ⟨out, err, rfl⟩
          · have hf : form_fails env c = true := by simp [form_fails, hc, hz]
            rw [logs_loop_cons_fail env c rest errors hf] at h ⊢
            exact ih _ h

theorem fetch_logs_true_text_ne_empty (env : SpawnEnv) (service_name : String)
    (h : (fetch_service_logs true env service_name).1 = true) :
    (fetch_service_logs true env service_name).2 ≠ "" := by
  have e1 : fetch_service_logs true env service_name =
      logs_loop env (logs_commands_to_try service_name) [] := rfl
  rw [e1] at h ⊢
  obtain ⟨out, err, hsh⟩ := logs_loop_true_shape env _ [] h
  rw [hsh]
  exact normalized_log_text_ne_empty out err

/-- The per-store invariant behind claim C4: a stage whose latest recorded
start outcome failed never carries fetched log text — its `logs` field is
the fixed explanatory message, not a log snapshot. -/
def LogInvariant (store : StatusStore) : Prop :=
  ∀ id st, store id = some st → st.success = false → st.logs = flow_failure_logs

theorem empty_store_log_invariant : LogInvariant emptyStore := by
  intro id st h
  simp [emptyStore] at h

theorem start_flow_preserves_log_invariant (step : FlowStep) (store : StatusStore)
    (h : LogInvariant store) : LogInvariant (start_flow step store).1 := by
  intro id st hread hfalse
  by_cases hcf : step.compose_file_exists = true
  · simp only [start_flow, hcf, Bool.not_true, Bool.false_eq_true, if_false] at hread
    by_cases hid : id = step.node.identifier
    · rw [hid, recordStatus_self] at hread
      have hst := Option.some.inj hread
      by_cases hr : (start_service_via_compose true
          step.compose_file_path step.env step.node.compose_service).1 = true
      · rw [← hst] at hfalse
        simp [hr] at hfalse
      · rw [Bool.not_eq_true] at hr
        rw [← hst]
        simp [hr, flow_failure_logs]
    · rw [show recordStatus store step.node.identifier _ id = store id from
          if_neg hid] at hread
      exact h id st hread hfalse
  · rw [Bool.not_eq_true] at hcf
    simp only [start_flow, hcf, Bool.not_false, if_true] at hread
    exact h id st hread hfalse

theorem run_flow_preserves_log_invariant (steps : List FlowStep) :
    ∀ store, LogInvariant store → LogInvariant (run_flow steps store) := by
  induction steps with
  | nil => intro store h; exact h
  | cons step rest ih =>
      intro store h
      exact ih _ (start_flow_preserves_log_invariant step store h)

/-- Claim C4: the composed start-then-fetch flow invokes the log fetch only
when the preceding start succeeded, and after any sequence of button
presses the status store never associates fetched log text with a stage
whose latest start outcome failed — such a stage's `logs` field is always
the fixed explanatory message. -/
theorem flow_fetch_gated_by_success :
    (∀ (step : FlowStep) (store : StatusStore),
      (start_flow step store).2 = true →
      (start_service_via_compose step.compose_file_exists step.compose_file_path
         step.env step.node.compose_service).1 = true) ∧
    (∀ (steps : List FlowStep) (id : String) (st : ServiceStatus),
      run_flow steps emptyStore id = some st → st.success = false →
      st.logs = flow_failure_logs) := by
  constructor
  · intro step store hfetch
    by_cases hcf : step.compose_file_exists = true
    · simp only [start_flow, hcf, Bool.not_true, Bool.false_eq_true, if_false] at hfetch
      by_cases hr : (start_service_via_compose true
          step.compose_file_path step.env step.node.compose_service).1 = true
      · rw [hcf]
        exact hr
      · rw [Bool.not_eq_true] at hr
        simp [hr] at hfetch
    · rw [Bool.not_eq_true] at hcf
      simp [start_flow, hcf] at hfetch
  · intro steps id st hread hfalse
    exact run_flow_preserves_log_invariant steps emptyStore
      empty_store_log_invariant id st hread hfalse

/-- Process environment in which the first form always succeeds. -/
def env_success_demo : SpawnEnv := fun _ => ProcResult.exited 0 "ok" ""

/-- A button press for the first pipeline stage with both programs
missing. -/
def demo_fail_step : FlowStep :=
  { compose_file_exists := true
    compose_file_path := "/project/docker-compose.yml"
    env := env_not_found_demo
    node := PIPELINE_STEPS.getD 0 default }

/-- A button press for the first pipeline stage with a succeeding
program. -/
def demo_success_step : FlowStep :=
  { compose_file_exists := true
    compose_file_path := "/project/docker-compose.yml"
    env := env_success_demo
    node := PIPELINE_STEPS.getD 0 default }

/-- The record stored for the first stage after a press in which both
command forms were missing. -/
def demo_failed_status : ServiceStatus :=
  { success := false
    message := "Failed to start service \x27dataingestion-service\x27. See details below."
    details := "Command not found: docker compose\n\nCommand not found: docker-compose"
    logs := flow_failure_logs }

/-- Witness for `flow_fetch_gated_by_success`: a successful press did fetch
logs (so the start had succeeded), and after a failed press the stored
record carries the fixed explanatory message, not a log snapshot. -/
theorem flow_fetch_gated_by_success_witness :
    (start_service_via_compose true "/project/docker-compose.yml" env_success_demo
        "dataingestion-service").1 = true ∧
    demo_failed_status.logs = flow_failure_logs :=
  ⟨flow_fetch_gated_by_success.1 demo_success_step emptyStore (by decide),
   flow_fetch_gated_by_success.2 [demo_fail_step] "dataingestion-service"
     demo_failed_status (by decide) (by decide)⟩

/-- Claim C9: after any start-button press with the manifest present, the
`logs` field stored for the triggered stage is a non-empty string: on start
failure it is the fixed explanatory message, on a successful fetch it is
the fetched text (never empty thanks to the sentinel), and on fetch
failure it is the accumulated diagnostics or the `"No logs available."`
fallback — all non-empty. -/
theorem flow_stored_logs_nonempty (env : SpawnEnv) (compose_file_path : String)
    (node : ServiceNode) (store : StatusStore) :
    ∃ st,
      (start_flow ⟨true, compose_file_path, env, node⟩ store).1 node.identifier =
        some st ∧
      st.logs ≠ "" ∧
      (st.success = false → st.logs = flow_failure_logs) := by
  refine ⟨_, recordStatus_self store node.identifier _, ?_, ?_⟩
  · by_cases hr : (start_service_via_compose true compose_file_path env
        node.compose_service).1 = true
    · by_cases hl : (fetch_service_logs true env node.compose_service).1 = true
      · simpa [hr, hl] using fetch_logs_true_text_ne_empty env node.compose_service hl
      · rw [Bool.not_eq_true] at hl
        by_cases hv : (fetch_service_logs true env node.compose_service).2 = ""
        · simp [hr, hl, hv]
        · simp [hr, hl, hv]
    · rw [Bool.not_eq_true] at hr
      simp [hr, flow_failure_logs]
  · intro hfalse
    by_cases hr : (start_service_via_compose true compose_file_path env
        node.compose_service).1 = true
    · simp [hr] at hfalse
    · rw [Bool.not_eq_true] at hr
      simp [hr, flow_failure_logs]

/-- Witness for `controller_results_total`: with every program missing, the
classification lands in the all-forms-failed shape, evaluated concretely. -/
theorem controller_results_total_witness :
    start_service_via_compose true "/project/docker-compose.yml" env_not_found_demo
        "dataingestion-service" =
      (false,
       "Failed to start service \x27dataingestion-service\x27. See details below.",
       "Command not found: docker compose\n\nCommand not found: docker-compose") := by
  rcases controller_results_total true env_not_found_demo "/project/docker-compose.yml"
      "dataingestion-service" with ⟨hfalse, _⟩ | ⟨_, hs, _⟩
  · exact absurd hfalse (by decide)
  · rcases hs with ⟨front, command, rest, out, err, _, _, hsucc, _⟩ | ⟨_, hres⟩
    · exact absurd hsucc (by simp [env_not_found_demo])
    · exact hres.trans (by decide)

/-- Witness for `flow_stored_logs_nonempty`: the record stored after a
press in which both forms were missing has the fixed non-empty message. -/
theorem flow_stored_logs_nonempty_witness :
    demo_failed_status.logs ≠ "" ∧
    (demo_failed_status.success = false →
      demo_failed_status.logs = flow_failure_logs) := by
  obtain ⟨st, hread, hne, himp⟩ := flow_stored_logs_nonempty env_not_found_demo
    "/project/docker-compose.yml" (PIPELINE_STEPS.getD 0 default) emptyStore
  have hval : (start_flow ⟨true, "/project/docker-compose.yml", env_not_found_demo,
      PIPELINE_STEPS.getD 0 default⟩ emptyStore).1
      (PIPELINE_STEPS.getD 0 default).identifier = some demo_failed_status := by decide
  rw [hval] at hread
  have hst := Option.some.inj hread
  subst hst
  exact ⟨hne, himp⟩
